import Mathlib

/-!
Verification development for the TwentyMCP server (a Model Context Protocol
server exposing the Twenty CRM REST API as callable tools).

The definitions below are shallow embeddings of the TypeScript source:
JavaScript `Map`s and SQLite tables become string-keyed association lists,
async handlers become total functions over explicit outcome environments
(`Except` values standing for resolved promises / thrown exceptions), and
JSON payloads become structures with `Option` fields recording field
presence.  Each definition's doc comment names the source location it
embeds.
-/

namespace TwentyMCP

/-! ## String-keyed association maps

JavaScript `Map` objects (`sessions`, `tokenCache`, `sessionTokens`, the
transports records) and the SQLite tables keyed by a TEXT primary key are
all modelled as association lists with at most one binding per key.
`alistSet` mirrors `Map.set` / `INSERT OR REPLACE`: it replaces the value
in place when the key exists and appends otherwise. -/

def alistLookup {α : Type} : List (String × α) → String → Option α
  | [], _ => none
  | (k, v) :: rest, key => if k = key then some v else alistLookup rest key

def alistErase {α : Type} : List (String × α) → String → List (String × α)
  | [], _ => []
  | (k, v) :: rest, key =>
      if k = key then alistErase rest key else (k, v) :: alistErase rest key

def alistSet {α : Type} : List (String × α) → String → α → List (String × α)
  | [], key, v => [(key, v)]
  | (k, w) :: rest, key, v =>
      if k = key then (k, v) :: rest else (k, w) :: alistSet rest key v

theorem alistLookup_erase_self {α : Type} (l : List (String × α)) (key : String) :
    alistLookup (alistErase l key) key = none := by
  induction l with
  | nil => rfl
  | cons hd tl ih =>
      obtain ⟨k, v⟩ := hd
      by_cases hk : k = key
      · simpa [alistErase, hk] using ih
      · simp [alistErase, hk, alistLookup, ih]

theorem alistLookup_set_self {α : Type} (l : List (String × α)) (key : String) (v : α) :
    alistLookup (alistSet l key v) key = some v := by
  induction l with
  | nil => simp [alistSet, alistLookup]
  | cons hd tl ih =>
      obtain ⟨k, w⟩ := hd
      by_cases hk : k = key
      · simp [alistSet, hk, alistLookup]
      · simp [alistSet, hk, alistLookup, ih]

/-! ## Data model

`TwentyCRMClient` (src/twenty-client.ts) is constructed from one bearer
key; for resolution purposes a client is identified by that key.
`SessionData` mirrors the `Session` interface of src/index.ts
(`{ apiKey, userId?, client }`), which is also the element type of the
`sessions` map in the unnamed server variant (part_010 line 49). -/

structure TwentyCRMClient where
  apiKey : String
deriving DecidableEq, Repr

structure SessionData where
  apiKey : String
  userId : Option String
  client : TwentyCRMClient
deriving DecidableEq, Repr

/-- The global `sessions` map: session id to session data. -/
abbrev Registry := List (String × SessionData)

/-- The error message thrown by both `getClient` variants when no client
can be resolved (src/index.ts line 143, part_010 line 142). -/
def notAuthenticatedMsg (sessionId : String) : String :=
  "Not authenticated. Please use Bearer token authentication or the authenticate tool first. Session: "
    ++ sessionId

/-- Embeds `getClient` from the unnamed index variant (part_010 lines
102-143): first the pre-authenticated Bearer client passed to
`createServer`, then the request-scoped `currentRequestClient`, then the
exact `sessions` entry for the given session id, then the first entry of
the `sessions` map iteration (the any-session fallback), else a thrown
not-authenticated error. -/
def part010GetClient (authenticatedClient currentRequestClient : Option TwentyCRMClient)
    (sessions : Registry) (sessionId : String) : Except String TwentyCRMClient :=
  match authenticatedClient with
  | some c => Except.ok c
  | none =>
      match currentRequestClient with
      | some c => Except.ok c
      | none =>
          match alistLookup sessions sessionId with
          | some s => Except.ok s.client
          | none =>
              match sessions with
              | (_, s) :: _ => Except.ok s.client
              | [] => Except.error (notAuthenticatedMsg sessionId)

/-- Embeds `getClient` from src/index.ts lines 131-144: the exact
`sessions` entry first, then the `defaultClient` captured by
`createMcpServer` (the Bearer-authenticated request-scoped client), else
a thrown not-authenticated error.  There is no any-session fallback in
this variant. -/
def indexGetClient (sessions : Registry) (defaultClient : Option TwentyCRMClient)
    (sessionId : String) : Except String TwentyCRMClient :=
  match alistLookup sessions sessionId with
  | some s => Except.ok s.client
  | none =>
      match defaultClient with
      | some c => Except.ok c
      | none => Except.error (notAuthenticatedMsg sessionId)

/-- Modelled from the spec: the resolution-order policy of section 4.3 —
the request-scoped pre-authenticated client takes precedence, then the
exact session-id match, then an arbitrarily chosen (first) existing
session; absent means resolution fails. -/
def specResolutionOrder (requestScoped : Option TwentyCRMClient) (sessions : Registry)
    (sessionId : String) : Option TwentyCRMClient :=
  match requestScoped with
  | some c => some c
  | none =>
      match alistLookup sessions sessionId with
      | some s => some s.client
      | none =>
          match sessions with
          | (_, s) :: _ => some s.client
          | [] => none

/-- The two request-scoped pre-authenticated sources of part_010
(`authenticatedClient`, then `currentRequestClient`), combined in the
order the code checks them. -/
def combinePreAuth (a b : Option TwentyCRMClient) : Option TwentyCRMClient :=
  match a with
  | some c => some c
  | none => b

/-- Lifts the spec chain's optional result to the `getClient` contract:
a hit is returned, a miss is the thrown not-authenticated error. -/
def resolveOrFail (o : Option TwentyCRMClient) (sessionId : String) :
    Except String TwentyCRMClient :=
  match o with
  | some c => Except.ok c
  | none => Except.error (notAuthenticatedMsg sessionId)

/-- C1 (amended): the part_010 `getClient` follows exactly the claimed
resolution order — request-scoped pre-authenticated client (its two
sources in code order), then exact session-id match, then the
first-existing-session fallback, failing only when all three miss. -/
theorem c1_part010_getClient_follows_spec_order
    (a b : Option TwentyCRMClient) (sessions : Registry) (sessionId : String) :
    part010GetClient a b sessions sessionId =
      resolveOrFail (specResolutionOrder (combinePreAuth a b) sessions sessionId) sessionId := by
  cases a <;> cases b <;>
    simp only [part010GetClient, specResolutionOrder, combinePreAuth, resolveOrFail] <;>
    cases h : alistLookup sessions sessionId <;>
    simp only [h] <;> cases sessions <;> rfl

def clientA : TwentyCRMClient := ⟨"key-a"⟩

def clientB : TwentyCRMClient := ⟨"key-b"⟩

def sessionA : SessionData := ⟨"key-a", none, clientA⟩

/-- C1 (counterexample): the src/index.ts `getClient` does not follow the
claimed order.  With a session-table hit and a request-scoped
pre-authenticated client both present it returns the session client, not
the pre-authenticated one; and with only a foreign session present it
fails instead of falling back to that session. -/
theorem c1_counterexample :
    indexGetClient [("s1", sessionA)] (some clientB) "s1" = Except.ok clientA ∧
    specResolutionOrder (some clientB) [("s1", sessionA)] "s1" = some clientB ∧
    clientA ≠ clientB ∧
    indexGetClient [("other", sessionA)] none "s2" =
      Except.error (notAuthenticatedMsg "s2") ∧
    specResolutionOrder none [("other", sessionA)] "s2" = some clientA := by
  refine ⟨rfl, rfl, ?_, rfl, rfl⟩
  intro h
  simpa [clientA, clientB] using congrArg TwentyCRMClient.apiKey h

/-! ## Credential Store (src/auth/database.ts)

The `user_api_mappings` SQLite table is keyed by `stytch_user_id`; a row
carries the `twenty_api_key_encrypted` column (so named in the schema),
a `metadata` JSON string, and a nullable `last_used` timestamp.  The
`created_at` column is never read by the code and is omitted here. -/

structure UserMappingRow where
  twentyApiKeyEncrypted : String
  metadata : String
  lastUsed : Option Nat
deriving DecidableEq, Repr

abbrev MappingDb := List (String × UserMappingRow)

/-- Embeds `setApiKeyForUser` (src/auth/database.ts lines 107-129): an
`INSERT OR REPLACE` of `(stytch_user_id, twenty_api_key_encrypted,
metadata)`.  The value bound as `twenty_api_key_encrypted` is the
`twentyApiKey` argument itself — the `encryptApiKey` helper defined at
lines 68-71 is not called on this path.  A replaced row loses its prior
`last_used` (the replacement row has the column defaults). -/
def setApiKeyForUser (db : MappingDb) (stytchUserId twentyApiKey metadata : String) :
    MappingDb :=
  alistSet db stytchUserId
    { twentyApiKeyEncrypted := twentyApiKey, metadata := metadata, lastUsed := none }

/-- Embeds the `last_used = CURRENT_TIMESTAMP` side-effecting UPDATE that
`getApiKeyForUser` issues on a hit (src/auth/database.ts lines 91-95). -/
def touchLastUsed (db : MappingDb) (stytchUserId : String) (now : Nat) : MappingDb :=
  match alistLookup db stytchUserId with
  | some row => alistSet db stytchUserId { row with lastUsed := some now }
  | none => db

/-- Embeds `getApiKeyForUser` (src/auth/database.ts lines 77-105): on a
hit it refreshes `last_used` and resolves the stored
`twenty_api_key_encrypted` value; on a miss it falls back to the
configured `DEFAULT_TWENTY_API_KEY` (or null). -/
def getApiKeyForUser (db : MappingDb) (defaultTwentyApiKey : Option String)
    (stytchUserId : String) (now : Nat) : Option String × MappingDb :=
  match alistLookup db stytchUserId with
  | some row => (some row.twentyApiKeyEncrypted, touchLastUsed db stytchUserId now)
  | none => (defaultTwentyApiKey, db)

/-- C2 (code evaluated at the failing input): storing the pair
("user-1", "key-abc") leaves the raw key "key-abc" in the
`twenty_api_key_encrypted` column — `setApiKeyForUser` writes its
plaintext argument, never calling `encryptApiKey` (and that helper is a
bcrypt hash, which would be irreversible anyway). -/
theorem c2_stored_value_is_plaintext :
    alistLookup (setApiKeyForUser [] "user-1" "key-abc" "{}") "user-1" =
      some { twentyApiKeyEncrypted := "key-abc", metadata := "{}", lastUsed := none } := by
  rfl

/-- C3: storing a key for an identity and reading it back returns exactly
the stored key, and a second store for the same identity fully replaces
the prior row (new key and metadata, no merge with the old row). -/
theorem c3_set_get_roundtrip_and_full_replace (db : MappingDb)
    (u k1 k2 m1 m2 : String) (d : Option String) (now : Nat) :
    (getApiKeyForUser (setApiKeyForUser db u k1 m1) d u now).1 = some k1 ∧
    alistLookup (setApiKeyForUser (setApiKeyForUser db u k1 m1) u k2 m2) u =
      some { twentyApiKeyEncrypted := k2, metadata := m2, lastUsed := none } := by
  constructor
  · simp [getApiKeyForUser, setApiKeyForUser, alistLookup_set_self]
  · simp [setApiKeyForUser, alistLookup_set_self]

/-- C3 witness: the round-trip and replacement facts at a concrete
identity and pair of keys. -/
theorem c3_witness :
    (getApiKeyForUser (setApiKeyForUser [] "user-1" "key-abc" "{}") none "user-1" 0).1 =
      some "key-abc" ∧
    alistLookup
        (setApiKeyForUser (setApiKeyForUser [] "user-1" "key-abc" "{}") "user-1" "key-xyz" "{}")
        "user-1" =
      some { twentyApiKeyEncrypted := "key-xyz", metadata := "{}", lastUsed := none } :=
  c3_set_get_roundtrip_and_full_replace [] "user-1" "key-abc" "key-xyz" "{}" "{}" none 0

/-! ## Session Registry teardown (claim C6)

Three close paths matter.  The `/sse` route of src/index.ts (lines
359-366) installs `res.on close` which deletes the transport record and
the `sessions` entry for the transport's session id.  The `/mcp` route of
the part_006 variant (lines 221-225) installs the same deletion for the
session id it created.  The `/mcp` route of src/index.ts (lines 209-319)
installs no close callback at all: nothing removes `sessions` entries
when the response closes (entries are kept for cookie-based reuse). -/

/-- Embeds the `res.on close` handler of the src/index.ts `/sse` route:
`delete sseTransports[sessionId]; sessions.delete(sessionId)`.  Only the
`sessions` component is relevant to registry resolution. -/
def sseCloseHandler (sessions : Registry) (sessionId : String) : Registry :=
  alistErase sessions sessionId

/-- Embeds the `res.on close` handler of the part_006 `/mcp` route:
`delete transports[newSessionId]; sessions.delete(newSessionId)`. -/
def part006McpCloseHandler (sessions : Registry) (sessionId : String) : Registry :=
  alistErase sessions sessionId

/-- Embeds the (absent) close teardown of the src/index.ts `/mcp` route:
the handler registers no close callback, so the `sessions` map is
unchanged when the response closes. -/
def indexMcpCloseTeardown (sessions : Registry) : Registry :=
  sessions

/-- C6 (amended): on the SSE binding of src/index.ts and on the part_006
`/mcp` binding, the transport-close handler removes the session binding,
so resolving that session id afterwards returns absent. -/
theorem c6_close_handlers_remove_session (sessions : Registry) (sessionId : String) :
    alistLookup (sseCloseHandler sessions sessionId) sessionId = none ∧
    alistLookup (part006McpCloseHandler sessions sessionId) sessionId = none :=
  ⟨alistLookup_erase_self sessions sessionId, alistLookup_erase_self sessions sessionId⟩

/-- C6 (counterexample): the streamable-http `/mcp` binding of
src/index.ts performs no teardown on response close, so a session entry
is still resolvable after its transport has gone away — refuting the
claim for "any of the transport bindings". -/
theorem c6_counterexample :
    alistLookup (indexMcpCloseTeardown [("s1", sessionA)]) "s1" = some sessionA := by
  rfl

/-! ## Tool handlers (src/tools/tasks.ts, src/tools/notes.ts)

Handlers are async functions whose entire body sits inside a try/catch;
the catch returns `{ content: [text], isError: true }`.  They are
embedded as total functions over an outcome environment: the `getClient`
resolution and each remote call are `Except` values standing for a
resolved or rejected promise.  The success branch serializes the
response; the serialized payloads are modelled structurally. -/

structure ToolResult where
  text : String
  isError : Bool
deriving DecidableEq, Repr

/-- Embeds the body of the twenty-crm-list-tasks handler (src/tools/
tasks.ts lines 26-54) as it runs inside the try block: resolve the
client, issue the GET, serialize the response. -/
def listTasksBody (resolveClient : Except String TwentyCRMClient)
    (makeRequest : TwentyCRMClient → Except String String) : Except String ToolResult :=
  match resolveClient with
  | Except.error e => Except.error e
  | Except.ok client =>
      match makeRequest client with
      | Except.error e => Except.error e
      | Except.ok resp => Except.ok { text := resp, isError := false }

/-- Embeds the full twenty-crm-list-tasks handler (src/tools/tasks.ts
lines 26-65): the try block above with the catch clause that turns any
thrown error into an `isError` tool result prefixed
"Error listing tasks: ". -/
def listTasksHandler (resolveClient : Except String TwentyCRMClient)
    (makeRequest : TwentyCRMClient → Except String String) : ToolResult :=
  match listTasksBody resolveClient makeRequest with
  | Except.ok r => r
  | Except.error e => { text := "Error listing tasks: " ++ e, isError := true }

/-- C4: a tool invocation whose session has no resolvable credential (no
session-table entry and no request-scoped default client) yields a
structured error result carrying the not-authenticated message — the
thrown resolution error is caught at the handler boundary (the handler is
a total function into `ToolResult`; no exception reaches the transport),
whatever the remote-call outcome would have been. -/
theorem c4_no_credential_yields_auth_error_result (sessions : Registry)
    (sessionId : String) (h : alistLookup sessions sessionId = none)
    (makeRequest : TwentyCRMClient → Except String String) :
    listTasksHandler (indexGetClient sessions none sessionId) makeRequest =
      { text := "Error listing tasks: " ++ notAuthenticatedMsg sessionId, isError := true } := by
  simp [listTasksHandler, listTasksBody, indexGetClient, h]

/-- C4 witness: the empty registry with the default session id. -/
theorem c4_witness :
    alistLookup ([] : Registry) "default" = none ∧
    listTasksHandler (indexGetClient [] none "default") (fun _ => Except.ok "ok") =
      { text := "Error listing tasks: " ++ notAuthenticatedMsg "default", isError := true } :=
  ⟨rfl, c4_no_credential_yields_auth_error_result [] "default" rfl (fun _ => Except.ok "ok")⟩

/-! ### Create-task and create-note with auto-link (claim C5) -/

structure LinkSuccess where
  linkType : String
  targetId : String
deriving DecidableEq, Repr

structure LinkFailure where
  linkType : String
  targetId : String
  errorMessage : String
deriving DecidableEq, Repr

/-- The JSON object the twenty-crm-create-task handler serializes on the
non-error path (src/tools/tasks.ts lines 174-236). -/
structure CreateTaskResults where
  success : Bool
  taskId : String
  message : String
  linkedTargets : List LinkSuccess
  linkingErrors : List LinkFailure
deriving DecidableEq, Repr

/-- A create-task tool result: either the serialized results object
(non-error content) or the catch clause's `isError` text. -/
inductive CreateTaskOutcome where
  | result (r : CreateTaskResults)
  | errorText (msg : String)
deriving DecidableEq, Repr

def CreateTaskOutcome.isError : CreateTaskOutcome → Bool
  | CreateTaskOutcome.result _ => false
  | CreateTaskOutcome.errorText _ => true

/-- Outcome environment for one twenty-crm-create-task invocation: the
client resolution, the POST /tasks response's `data?.createTask?.id`, and
the two optional POST /taskTargets link calls. -/
structure CreateTaskEnv where
  resolveClient : Except String TwentyCRMClient
  createTaskId : Except String (Option String)
  linkCompany : Except String Unit
  linkPerson : Except String Unit

/-- The auto-link step for one target (src/tools/tasks.ts lines 182-229):
its own try/catch pushes a success entry or a linking-error entry, never
rethrowing. -/
def applyLink (r : CreateTaskResults) (linkType : String) (target : Option String)
    (outcome : Except String Unit) : CreateTaskResults :=
  match target with
  | none => r
  | some tid =>
      match outcome with
      | Except.ok _ => { r with linkedTargets := r.linkedTargets ++ [⟨linkType, tid⟩] }
      | Except.error e =>
          { r with linkingErrors := r.linkingErrors ++ [⟨linkType, tid, e⟩] }

/-- Embeds the twenty-crm-create-task handler (src/tools/tasks.ts lines
129-248): create the task; a missing id throws into the outer catch; then
run the optional company and person auto-links, each under its own catch;
return the results object as non-error content. -/
def createTaskHandler (linkToCompanyId linkToPersonId : Option String)
    (env : CreateTaskEnv) : CreateTaskOutcome :=
  match env.resolveClient with
  | Except.error e => CreateTaskOutcome.errorText ("Error creating task: " ++ e)
  | Except.ok _ =>
      match env.createTaskId with
      | Except.error e => CreateTaskOutcome.errorText ("Error creating task: " ++ e)
      | Except.ok none =>
          CreateTaskOutcome.errorText
            ("Error creating task: " ++ "Task creation failed - no task ID returned")
      | Except.ok (some taskId) =>
          let base : CreateTaskResults :=
            { success := true, taskId := taskId, message := "Task created successfully",
              linkedTargets := [], linkingErrors := [] }
          let afterCompany := applyLink base "company" linkToCompanyId env.linkCompany
          let afterPerson := applyLink afterCompany "person" linkToPersonId env.linkPerson
          CreateTaskOutcome.result afterPerson

/-- The JSON object the create-note handler serializes on the non-error
path (src/tools/notes.ts lines 238-250): auto-link outcomes are reported
as strings in `linksCreated`. -/
structure CreateNoteResults where
  success : Bool
  noteId : String
  message : String
  linksCreated : List String
deriving DecidableEq, Repr

inductive CreateNoteOutcome where
  | result (r : CreateNoteResults)
  | errorText (msg : String)
deriving DecidableEq, Repr

structure CreateNoteEnv where
  resolveClient : Except String TwentyCRMClient
  createNoteId : Except String (Option String)
  linkCompany : Except String Unit
  linkPerson : Except String Unit

/-- The create-note auto-link step for one target (src/tools/notes.ts
lines 192-236): pushes "Linked to ..." on success and
"Failed to link to ...: " plus the error message on failure, never
rethrowing. -/
def applyNoteLink (links : List String) (kind : String) (target : Option String)
    (outcome : Except String Unit) : List String :=
  match target with
  | none => links
  | some tid =>
      match outcome with
      | Except.ok _ => links ++ ["Linked to " ++ kind ++ " " ++ tid]
      | Except.error e => links ++ ["Failed to link to " ++ kind ++ ": " ++ e]

/-- Embeds the create-note handler (src/tools/notes.ts lines 128-262). -/
def createNoteHandler (linkToCompanyId linkToPersonId : Option String)
    (env : CreateNoteEnv) : CreateNoteOutcome :=
  match env.resolveClient with
  | Except.error e => CreateNoteOutcome.errorText ("Error creating note: " ++ e)
  | Except.ok _ =>
      match env.createNoteId with
      | Except.error e => CreateNoteOutcome.errorText ("Error creating note: " ++ e)
      | Except.ok none =>
          CreateNoteOutcome.errorText
            ("Error creating note: " ++ "Failed to create note - no note ID in response")
      | Except.ok (some noteId) =>
          let links := applyNoteLink [] "company" linkToCompanyId env.linkCompany
          let links := applyNoteLink links "person" linkToPersonId env.linkPerson
          CreateNoteOutcome.result
            { success := true, noteId := noteId,
              message := "Note created successfully", linksCreated := links }

/-- C5: when the primary create succeeds but the requested company
auto-link fails, the twenty-crm-create-task handler still reports the
task creation as a success (non-error content, `success := true`, the
created id) with the link failure recorded separately in
`linkingErrors`; the create-note handler likewise returns success with a
"Failed to link" detail in `linksCreated`.  Neither escalates the link
failure to an error result. -/
theorem c5_link_failure_is_partial_detail
    (cl : TwentyCRMClient) (taskEnv : CreateTaskEnv) (noteEnv : CreateNoteEnv)
    (tid nid cid e eN : String)
    (h1 : taskEnv.resolveClient = Except.ok cl)
    (h2 : taskEnv.createTaskId = Except.ok (some tid))
    (h3 : taskEnv.linkCompany = Except.error e)
    (h4 : noteEnv.resolveClient = Except.ok cl)
    (h5 : noteEnv.createNoteId = Except.ok (some nid))
    (h6 : noteEnv.linkCompany = Except.error eN) :
    createTaskHandler (some cid) none taskEnv =
      CreateTaskOutcome.result
        { success := true, taskId := tid, message := "Task created successfully",
          linkedTargets := [], linkingErrors := [⟨"company", cid, e⟩] } ∧
    (createTaskHandler (some cid) none taskEnv).isError = false ∧
    createNoteHandler (some cid) none noteEnv =
      CreateNoteOutcome.result
        { success := true, noteId := nid, message := "Note created successfully",
          linksCreated := ["Failed to link to company: " ++ eN] } := by
  refine ⟨?_, ?_, ?_⟩ <;>
    simp [createTaskHandler, createNoteHandler, applyLink, applyNoteLink,
      CreateTaskOutcome.isError, h1, h2, h3, h4, h5, h6]

/-- C5 witness: concrete environments in which the create succeeds and
the company link call is rejected. -/
theorem c5_witness :
    createTaskHandler (some "comp-1") none
        ⟨Except.ok clientA, Except.ok (some "task-1"), Except.error "boom", Except.ok ()⟩ =
      CreateTaskOutcome.result
        { success := true, taskId := "task-1", message := "Task created successfully",
          linkedTargets := [], linkingErrors := [⟨"company", "comp-1", "boom"⟩] } ∧
    (createTaskHandler (some "comp-1") none
        ⟨Except.ok clientA, Except.ok (some "task-1"), Except.error "boom", Except.ok ()⟩).isError
      = false ∧
    createNoteHandler (some "comp-1") none
        ⟨Except.ok clientA, Except.ok (some "note-1"), Except.error "boom", Except.ok ()⟩ =
      CreateNoteOutcome.result
        { success := true, noteId := "note-1", message := "Note created successfully",
          linksCreated := ["Failed to link to company: " ++ "boom"] } :=
  c5_link_failure_is_partial_detail clientA
    ⟨Except.ok clientA, Except.ok (some "task-1"), Except.error "boom", Except.ok ()⟩
    ⟨Except.ok clientA, Except.ok (some "note-1"), Except.error "boom", Except.ok ()⟩
    "task-1" "note-1" "comp-1" "boom" "boom" rfl rfl rfl rfl rfl rfl

/-! ## bodyV2 payload construction (claim C7)

The remote API's rich-text field is `bodyV2.{markdown, blocknote}`.  A
built `bodyV2` object is modelled with `Option` sub-fields recording
which keys the handler actually set; `none` for the whole object means
`bodyV2` is omitted from the payload. -/

structure BodyV2 where
  markdown : Option String
  blocknote : Option String
deriving DecidableEq, Repr

/-- JavaScript string truthiness for an optional field: present and
non-empty. -/
def optTruthy : Option String → Bool
  | some s => s ≠ ""
  | none => false

def dropLeadingWs : List Char → List Char
  | [] => []
  | c :: cs => if c.isWhitespace then dropLeadingWs cs else c :: cs

/-- Executable model of JavaScript `String.prototype.trim`: whitespace
stripped from both ends. -/
def jsTrim (s : String) : String :=
  String.mk (dropLeadingWs ((dropLeadingWs s.data.reverse).reverse))

/-- Truthiness of the trimmed value (the `x && x.trim()` idiom of the
note handler). -/
def optTrimTruthy : Option String → Bool
  | some s => jsTrim s ≠ ""
  | none => false

/-- Embeds the twenty-crm-create-task bodyV2 construction (src/tools/
tasks.ts lines 146-151): when `content` is truthy and trims truthy, send
both sub-fields, with the empty string standing in for `blocknote`;
otherwise omit `bodyV2`. -/
def twentyCrmCreateTaskBodyV2 (content : Option String) : Option BodyV2 :=
  match content with
  | some c =>
      if c ≠ "" && jsTrim c ≠ "" then
        some { markdown := some (jsTrim c), blocknote := some "" }
      else none
  | none => none

/-- Embeds the twenty-crm-update-task bodyV2 construction (src/tools/
tasks.ts lines 284-289): whenever `content` is present (even empty), send
both sub-fields (`content || ""` and the empty-string blocknote). -/
def twentyCrmUpdateTaskBodyV2 (content : Option String) : Option BodyV2 :=
  match content with
  | some c => some { markdown := some c, blocknote := some "" }
  | none => none

/-- Embeds the legacy create-task variant's bodyV2 construction
(src/tools/tasks.ts lines 680-689): when either input is truthy, build an
object holding exactly the truthy inputs. -/
def variantCreateTaskBodyV2 (bodyMarkdown bodyBlocknote : Option String) : Option BodyV2 :=
  if optTruthy bodyMarkdown || optTruthy bodyBlocknote then
    some { markdown := if optTruthy bodyMarkdown then bodyMarkdown else none,
           blocknote := if optTruthy bodyBlocknote then bodyBlocknote else none }
  else none

/-- Embeds the create-note bodyV2 construction (src/tools/notes.ts lines
154-167): when either input is truthy, set each sub-field only if it is
truthy and trims truthy, and drop the object entirely if it ends up with
no keys. -/
def createNoteBodyV2 (bodyMarkdown bodyBlocknote : Option String) : Option BodyV2 :=
  if optTruthy bodyMarkdown || optTruthy bodyBlocknote then
    let mdv := if optTruthy bodyMarkdown && optTrimTruthy bodyMarkdown
      then bodyMarkdown else none
    let bnv := if optTruthy bodyBlocknote && optTrimTruthy bodyBlocknote
      then bodyBlocknote else none
    if mdv.isNone && bnv.isNone then none
    else some { markdown := mdv, blocknote := bnv }
  else none

/-- The joint-field requirement of the claim: if `bodyV2` is sent at all
it carries both sub-fields. -/
def bodyV2Joint : Option BodyV2 → Bool
  | none => true
  | some b => b.markdown.isSome && b.blocknote.isSome

/-- C7 (counterexample): the create-note handler with only `bodyMarkdown`
set sends a `bodyV2` containing the markdown sub-field alone, and the
legacy create-task variant does the same — refuting the claim that a
one-sub-field `bodyV2` is never sent. -/
theorem c7_counterexample :
    createNoteBodyV2 (some "Hello") none = some { markdown := some "Hello", blocknote := none } ∧
    bodyV2Joint (createNoteBodyV2 (some "Hello") none) = false ∧
    bodyV2Joint (variantCreateTaskBodyV2 (some "Hello") none) = false := by
  refine ⟨?_, ?_, ?_⟩ <;> decide

/-- C7 (amended): the twenty-crm-prefixed task handlers always send
`bodyV2` with both sub-fields together (empty string filling the missing
one) or omit it entirely; the legacy create-task variant and the
create-note handler never send an empty `bodyV2` object but include only
the provided (truthy, and for notes trim-truthy) sub-fields, so they can
send a single-sub-field object. -/
theorem c7_bodyV2_construction
    (c : Option String) :
    bodyV2Joint (twentyCrmCreateTaskBodyV2 c) = true ∧
    bodyV2Joint (twentyCrmUpdateTaskBodyV2 c) = true ∧
    (∀ md bn b, variantCreateTaskBodyV2 md bn = some b →
      (b.markdown.isSome ∨ b.blocknote.isSome) ∧
      (b.markdown = none ∨ b.markdown = md) ∧ (b.blocknote = none ∨ b.blocknote = bn)) ∧
    (∀ md bn b, createNoteBodyV2 md bn = some b →
      (b.markdown.isSome ∨ b.blocknote.isSome) ∧
      (b.markdown = none ∨ b.markdown = md) ∧ (b.blocknote = none ∨ b.blocknote = bn)) := by
  refine ⟨?_, ?_, ?_, ?_⟩
  · cases c with
    | none => rfl
    | some s =>
        simp only [twentyCrmCreateTaskBodyV2]
        split <;> rfl
  · cases c with
    | none => rfl
    | some s => rfl
  · intro md bn b h
    simp only [variantCreateTaskBodyV2] at h
    split at h
    · rename_i ho
      injection h with hb
      subst hb
      refine ⟨?_, ?_, ?_⟩
      · rcases Bool.or_eq_true_iff.1 ho with hm | hn
        · left
          cases md with
          | none => simp [optTruthy] at hm
          | some s => simp [hm]
        · right
          cases bn with
          | none => simp [optTruthy] at hn
          | some s => simp [hn]
      · by_cases hm : optTruthy md = true <;> simp [hm]
      · by_cases hn : optTruthy bn = true <;> simp [hn]
    · simp at h
  · intro md bn b h
    simp only [createNoteBodyV2] at h
    split at h
    · generalize hmd : (if (optTruthy md && optTrimTruthy md) = true then md else none) = mdv at h
      generalize hbn : (if (optTruthy bn && optTrimTruthy bn) = true then bn else none) = bnv at h
      split at h
      · simp at h
      · rename_i hne
        injection h with hb
        subst hb
        refine ⟨?_, ?_, ?_⟩
        · cases mdv with
          | some s => exact Or.inl rfl
          | none =>
              cases bnv with
              | some s => exact Or.inr rfl
              | none => exact absurd rfl hne
        · rw [← hmd]
          split <;> simp
        · rw [← hbn]
          split <;> simp
    · simp at h

/-- C7 witness: the amended facts instantiated at concrete payloads. -/
theorem c7_witness :
    bodyV2Joint (twentyCrmCreateTaskBodyV2 (some "Hi")) = true ∧
    bodyV2Joint (twentyCrmUpdateTaskBodyV2 (some "Hi")) = true ∧
    ((⟨some "Hello", none⟩ : BodyV2).markdown.isSome ∨
      (⟨some "Hello", none⟩ : BodyV2).blocknote.isSome) :=
  ⟨(c7_bodyV2_construction (some "Hi")).1,
   (c7_bodyV2_construction (some "Hi")).2.1,
   ((c7_bodyV2_construction (some "Hi")).2.2.2 (some "Hello") none ⟨some "Hello", none⟩
      (by rfl)).1⟩

/-! ## List-people limit handling (claim C8) -/

/-- Embeds the `limit` bound of the list-people tool's input schema
(src/tools/people.ts line 20, zod `z.number().min(1).max(60)`): arguments
are validated against this schema before the handler runs, so a limit
outside the bound is rejected client-side with a validation error. -/
def listPeopleLimitValid (limit : Nat) : Bool :=
  1 ≤ limit && limit ≤ 60

/-- Query parameters of the CRM adapter's list calls
(src/twenty-client.ts `QueryParams`). -/
structure QueryParams where
  orderBy : Option String
  filter : Option String
  limit : Option Nat
  depth : Option Nat
  startingAfter : Option String
  endingBefore : Option String
deriving DecidableEq, Repr

structure HttpRequest where
  path : String
  params : QueryParams
deriving DecidableEq, Repr

/-- Embeds `TwentyCRMClient.findManyPeople` (src/twenty-client.ts lines
177-180): a single GET of `/people` with the given params passed through
verbatim, returning the remote response body unaltered. -/
def findManyPeople (p : QueryParams)
    (http : HttpRequest → Except String String) : Except String String :=
  http { path := "/people", params := p }

/-- C8 (counterexample): a caller-supplied limit of 200 is rejected
client-side — it fails the list-people input schema's bound, so the
adapter is never reached with it. -/
theorem c8_counterexample : listPeopleLimitValid 200 = false := by
  decide

/-- C8 (amended): the adapter itself neither clamps the limit nor alters
the response — `findManyPeople` sends the caller's params (limit
included) verbatim and returns whatever the remote answers — but the
tool layer's input schema bounds the limit to 1..60 before the adapter
is reached. -/
theorem c8_adapter_passthrough_schema_bound (p : QueryParams) (resp : String)
    (http : HttpRequest → Except String String)
    (h : http { path := "/people", params := p } = Except.ok resp) :
    findManyPeople p http = Except.ok resp ∧
    (∀ n, p.limit = some n → ({ path := "/people", params := p } : HttpRequest).params.limit
        = some n) ∧
    listPeopleLimitValid 200 = false := by
  refine ⟨by simpa [findManyPeople] using h, fun n hn => by simpa using hn, by decide⟩

/-- C8 witness: a concrete 200-row... rather, a concrete limit of 200
passed through the adapter against a remote stub returning a body. -/
theorem c8_witness :
    findManyPeople ⟨none, none, some 200, none, none, none⟩ (fun _ => Except.ok "rows") =
      Except.ok "rows" ∧ listPeopleLimitValid 200 = false :=
  ⟨(c8_adapter_passthrough_schema_bound ⟨none, none, some 200, none, none, none⟩ "rows"
      (fun _ => Except.ok "rows") rfl).1,
   (c8_adapter_passthrough_schema_bound ⟨none, none, some 200, none, none, none⟩ "rows"
      (fun _ => Except.ok "rows") rfl).2.2⟩

/-! ## Identity-token validation middleware (claim C9)

`validateOAuthToken` (part_009 lines 42-111) wraps its whole body —
cache check, Stytch session authentication, credential-store lookup,
token-cache write — in one try/catch whose catch returns
401 `invalid_token`.  The Stytch call's outcome is modelled with the
failure cause kept distinct (rejected token vs network/config failure),
even though both surface as a thrown error. -/

inductive StytchOutcome where
  | authenticated (userId : String) (expiresAtMs : Option Nat)
  | rejectedToken
  | networkFailure
deriving DecidableEq, Repr

structure ValidateEnv where
  bearerToken : Option String
  cacheHit : Option (String × String)
  stytchConfigured : Bool
  stytch : StytchOutcome
  db : MappingDb
  defaultTwentyApiKey : Option String
  nowMs : Nat
deriving Repr

inductive MiddlewareResult where
  | nextAuth (userId twentyApiKey : String)
  | httpError (status : Nat) (errorCode : String)
deriving DecidableEq, Repr

/-- Embeds `validateOAuthToken` (part_009 lines 42-111): missing Bearer
header is 401 `unauthorized`; a live token-cache hit short-circuits; with
no Stytch client configured the raw token is the key (dev-user path);
otherwise the Stytch session is authenticated — any thrown failure,
rejection and network failure alike, lands in the catch and is reported
as 401 `invalid_token` — and a validated user with no mapped key (and no
default) is 403 `forbidden`. -/
def validateOAuthToken (env : ValidateEnv) : MiddlewareResult :=
  match env.bearerToken with
  | none => MiddlewareResult.httpError 401 "unauthorized"
  | some token =>
      match env.cacheHit with
      | some (uid, key) => MiddlewareResult.nextAuth uid key
      | none =>
          if env.stytchConfigured = false then
            MiddlewareResult.nextAuth "dev-user" token
          else
            match env.stytch with
            | StytchOutcome.rejectedToken => MiddlewareResult.httpError 401 "invalid_token"
            | StytchOutcome.networkFailure => MiddlewareResult.httpError 401 "invalid_token"
            | StytchOutcome.authenticated uid _ =>
                match (getApiKeyForUser env.db env.defaultTwentyApiKey uid env.nowMs).1 with
                | none => MiddlewareResult.httpError 403 "forbidden"
                | some key => MiddlewareResult.nextAuth uid key

/-- A provider network failure on an uncached token in a
Stytch-configured deployment. -/
def c9Env : ValidateEnv :=
  { bearerToken := some "tok-1", cacheHit := none, stytchConfigured := true,
    stytch := StytchOutcome.networkFailure, db := [], defaultTwentyApiKey := none,
    nowMs := 0 }

/-- C9 (counterexample): a network/configuration failure reaching the
identity provider is reported to the caller as 401 `invalid_token` — the
same error as a provider-rejected token — because the catch-all maps
every thrown failure to `invalid_token`. -/
theorem c9_counterexample :
    validateOAuthToken c9Env = MiddlewareResult.httpError 401 "invalid_token" := by
  rfl

/-- C9 (amended): `validateOAuthToken` conflates provider-unreachable
with provider-rejected — both yield 401 `invalid_token` — while a
validated identity with no CRM mapping (and no default key) does get the
distinct 403 `forbidden` no-CRM-access error. -/
theorem c9_error_discrimination (env : ValidateEnv) (token : String)
    (h1 : env.bearerToken = some token) (h2 : env.cacheHit = none)
    (h3 : env.stytchConfigured = true) :
    (env.stytch = StytchOutcome.networkFailure →
      validateOAuthToken env = MiddlewareResult.httpError 401 "invalid_token") ∧
    (env.stytch = StytchOutcome.rejectedToken →
      validateOAuthToken env = MiddlewareResult.httpError 401 "invalid_token") ∧
    (∀ uid e, env.stytch = StytchOutcome.authenticated uid e →
      (getApiKeyForUser env.db env.defaultTwentyApiKey uid env.nowMs).1 = none →
      validateOAuthToken env = MiddlewareResult.httpError 403 "forbidden") := by
  refine ⟨?_, ?_, ?_⟩
  · intro hs
    simp [validateOAuthToken, h1, h2, h3, hs]
  · intro hs
    simp [validateOAuthToken, h1, h2, h3, hs]
  · intro uid e hs hk
    simp [validateOAuthToken, h1, h2, h3, hs, hk]

/-- C9 witness: the three discriminations at concrete environments. -/
theorem c9_witness :
    validateOAuthToken c9Env = MiddlewareResult.httpError 401 "invalid_token" ∧
    validateOAuthToken { c9Env with stytch := StytchOutcome.rejectedToken } =
      MiddlewareResult.httpError 401 "invalid_token" ∧
    validateOAuthToken { c9Env with stytch := StytchOutcome.authenticated "user-1" none } =
      MiddlewareResult.httpError 403 "forbidden" :=
  ⟨(c9_error_discrimination c9Env "tok-1" rfl rfl rfl).1 rfl,
   (c9_error_discrimination { c9Env with stytch := StytchOutcome.rejectedToken }
      "tok-1" rfl rfl rfl).2.1 rfl,
   (c9_error_discrimination { c9Env with stytch := StytchOutcome.authenticated "user-1" none }
      "tok-1" rfl rfl rfl).2.2 "user-1" none rfl rfl⟩

/-! ## Bearer-token verification (claim C10)

`ApiKeyOAuthProvider.verifyAccessToken` (src/auth/api-key-oauth-provider.ts
lines 133-232).  A bearer token is modelled as its raw string together
with the result of base64/JSON-decoding its middle segment; no signature
material enters the function at all (the code never verifies one).  The
`connectivityChecks` component records every key on which a
`TwentyCRMClient.testConnection()` round-trip was performed. -/

structure JwtPayload where
  apiKeyField : Option String
  apiKeyCamelField : Option String
  twentyApiKeyField : Option String
  ptype : Option String
  workspaceId : Option String
  clientIdField : Option String
  subField : Option String
  scopeField : Option String
  exp : Option Nat
deriving DecidableEq, Repr

structure BearerToken where
  raw : String
  payloadDecode : Option JwtPayload
deriving DecidableEq, Repr

/-- The `token.startsWith('eyJ')` JWT detection (line 148), expressed on
the character list so that it evaluates in the kernel. -/
def isJwtShaped (t : BearerToken) : Bool :=
  t.raw.data.take 3 == "eyJ".data

structure TokenInfo where
  token : String
  clientId : String
  scopes : List String
  expiresAtMs : Option Nat
  twentyApiKey : String
deriving DecidableEq, Repr

structure VerifyEnv where
  tokenCache : List (String × TokenInfo)
  nowMs : Nat
  connectionOk : String → Bool

structure VerifyResult where
  result : Except String TokenInfo
  connectivityChecks : List String
  cacheAfter : List (String × TokenInfo)

/-- JavaScript `a || b` over optional strings: the left value when
truthy, otherwise the right. -/
def jsOrStr (a b : Option String) : Option String :=
  if optTruthy a then a else b

/-- The `payload.api_key || payload.apiKey || payload.twenty_api_key`
chain (line 156). -/
def embeddedApiKey (p : JwtPayload) : Option String :=
  jsOrStr p.apiKeyField (jsOrStr p.apiKeyCamelField p.twentyApiKeyField)

/-- The `payload.scope ? payload.scope.split(' ') : ['read','write']`
ternary. -/
def scopesOf (p : JwtPayload) : List String :=
  match p.scopeField with
  | some s => if s ≠ "" then s.splitOn " " else ["read", "write"]
  | none => ["read", "write"]

/-- The `payload.exp ? new Date(payload.exp * 1000) : new Date(Date.now()
+ 24*60*60*1000)` expiry: seconds scaled to milliseconds when `exp` is a
truthy (nonzero) claim, else a 24-hour default. -/
def jwtExpiresMs (nowMs : Nat) (p : JwtPayload) : Nat :=
  match p.exp with
  | some e => if e ≠ 0 then e * 1000 else nowMs + 86400000
  | none => nowMs + 86400000

/-- The live-cache check (line 143): a hit counts only while unexpired. -/
def cacheLive (env : VerifyEnv) (raw : String) : Option TokenInfo :=
  match alistLookup env.tokenCache raw with
  | some info =>
      match info.expiresAtMs with
      | none => some info
      | some e => if env.nowMs < e then some info else none
  | none => none

/-- The JWT-with-embedded-API-key branch (lines 156-171): the embedded
key is connectivity-tested and becomes the CRM bearer key; a failed test
throws into the JWT catch. -/
def verifyJwtEmbeddedKey (env : VerifyEnv) (t : BearerToken) (p : JwtPayload)
    (k : String) : VerifyResult :=
  if env.connectionOk k then
    let info : TokenInfo :=
      { token := t.raw,
        clientId := (jsOrStr p.clientIdField (some ("jwt-user-" ++ t.raw.take 8))).getD "",
        scopes := scopesOf p,
        expiresAtMs := some (jwtExpiresMs env.nowMs p),
        twentyApiKey := k }
    ⟨Except.ok info, [k], alistSet env.tokenCache t.raw info⟩
  else ⟨Except.error "Invalid JWT token", [k], env.tokenCache⟩

/-- The generic-JWT acceptance (lines 190-202): accepted without any
check, with the JWT string itself as the key. -/
def verifyJwtGeneric (env : VerifyEnv) (t : BearerToken) (p : JwtPayload) : VerifyResult :=
  let info : TokenInfo :=
    { token := t.raw,
      clientId := (jsOrStr p.clientIdField
        (jsOrStr p.subField (some ("jwt-user-" ++ t.raw.take 8)))).getD "",
      scopes := scopesOf p,
      expiresAtMs := some (jwtExpiresMs env.nowMs p),
      twentyApiKey := t.raw }
  ⟨Except.ok info, [], alistSet env.tokenCache t.raw info⟩

/-- The token info built by the Twenty CRM JWT acceptance branch (lines
178-184): the JWT string itself is kept as the bearer key. -/
def twentyJwtTokenInfo (env : VerifyEnv) (t : BearerToken) (p : JwtPayload)
    (w : String) : TokenInfo :=
  { token := t.raw,
    clientId := (jsOrStr p.subField (some ("twenty-workspace-" ++ w))).getD "",
    scopes := ["read", "write"],
    expiresAtMs := some (jwtExpiresMs env.nowMs p),
    twentyApiKey := t.raw }

/-- The Twenty CRM JWT acceptance (lines 175-188): `payload.type ===
'API_KEY'` with a truthy `workspaceId` is accepted with no Twenty API
round-trip, keeping the JWT string as the bearer key; otherwise the
generic acceptance applies. -/
def verifyJwtNoEmbeddedKey (env : VerifyEnv) (t : BearerToken) (p : JwtPayload) :
    VerifyResult :=
  match p.workspaceId with
  | some w =>
      if p.ptype = some "API_KEY" && w ≠ "" then
        ⟨Except.ok (twentyJwtTokenInfo env t p w), [],
          alistSet env.tokenCache t.raw (twentyJwtTokenInfo env t p w)⟩
      else verifyJwtGeneric env t p
  | none => verifyJwtGeneric env t p

/-- The direct-API-key path for non-JWT tokens (lines 211-231):
connectivity-tested, 24-hour expiry, cached. -/
def verifyDirectKey (env : VerifyEnv) (t : BearerToken) : VerifyResult :=
  if env.connectionOk t.raw then
    let info : TokenInfo :=
      { token := t.raw, clientId := "twenty-user-" ++ t.raw.take 8,
        scopes := ["read", "write"], expiresAtMs := some (env.nowMs + 86400000),
        twentyApiKey := t.raw }
    ⟨Except.ok info, [t.raw], alistSet env.tokenCache t.raw info⟩
  else ⟨Except.error "Invalid API key", [t.raw], env.tokenCache⟩

/-- Embeds `ApiKeyOAuthProvider.verifyAccessToken` (src/auth/
api-key-oauth-provider.ts lines 133-232): live cache hit first; then the
JWT branches (undecodable payload throws; an embedded truthy api-key
field wins; then the Twenty CRM JWT acceptance; then generic
acceptance); then the direct-key path. -/
def verifyAccessToken (env : VerifyEnv) (t : BearerToken) : VerifyResult :=
  match cacheLive env t.raw with
  | some info => ⟨Except.ok info, [], env.tokenCache⟩
  | none =>
      if isJwtShaped t then
        match t.payloadDecode with
        | none => ⟨Except.error "Invalid JWT token", [], env.tokenCache⟩
        | some p =>
            match embeddedApiKey p with
            | some k =>
                if k ≠ "" then verifyJwtEmbeddedKey env t p k
                else verifyJwtNoEmbeddedKey env t p
            | none => verifyJwtNoEmbeddedKey env t p
      else verifyDirectKey env t

/-- Payload of a Twenty CRM workspace JWT with no embedded api-key
field and no exp claim. -/
def c10Payload : JwtPayload :=
  { apiKeyField := none, apiKeyCamelField := none, twentyApiKeyField := none,
    ptype := some "API_KEY", workspaceId := some "ws-1", clientIdField := none,
    subField := none, scopeField := none, exp := none }

def c10Token : BearerToken :=
  { raw := "eyJhbGciOiJIUzI1NiJ9", payloadDecode := some c10Payload }

/-- A Twenty-CRM-shaped payload that additionally carries an embedded
`api_key` claim. -/
def c10EmbeddedPayload : JwtPayload :=
  { c10Payload with apiKeyField := some "embedded-key" }

def c10EmbeddedToken : BearerToken :=
  { raw := "eyJhbGciOiJIUzI1NiJ9", payloadDecode := some c10EmbeddedPayload }

def c10Env : VerifyEnv :=
  { tokenCache := [], nowMs := 1000, connectionOk := fun _ => true }

/-- C10 (counterexample): a bearer token beginning "eyJ" whose payload
has type API_KEY and a workspaceId but also an embedded `api_key` claim
takes the earlier branch — `verifyAccessToken` performs a connectivity
check against the CRM with the embedded key and uses that key, not the
JWT string, as the bearer key. -/
theorem c10_counterexample :
    (verifyAccessToken c10Env c10EmbeddedToken).connectivityChecks = ["embedded-key"] ∧
    (verifyAccessToken c10Env c10EmbeddedToken).result.toOption.map TokenInfo.twentyApiKey =
      some "embedded-key" := by
  constructor <;> decide

/-- C10 (amended): for a cache-missed "eyJ"-shaped token whose decoded
payload has type API_KEY, a truthy workspaceId, and none of the embedded
api-key claims, `verifyAccessToken` succeeds with no connectivity check
(and, structurally, no signature ever enters the computation), uses the
JWT string itself as the CRM bearer key, stamps the expiry from the exp
claim scaled to milliseconds or a 24-hour default when the claim is
absent, and caches the resulting token info under the raw token. -/
theorem c10_twenty_jwt_accepted_without_check (env : VerifyEnv) (t : BearerToken)
    (p : JwtPayload) (w : String)
    (hc : cacheLive env t.raw = none) (hj : isJwtShaped t = true)
    (hp : t.payloadDecode = some p)
    (h1 : p.apiKeyField = none) (h2 : p.apiKeyCamelField = none)
    (h3 : p.twentyApiKeyField = none)
    (hty : p.ptype = some "API_KEY") (hw : p.workspaceId = some w) (hwt : w ≠ "") :
    (verifyAccessToken env t).result = Except.ok (twentyJwtTokenInfo env t p w) ∧
    (verifyAccessToken env t).connectivityChecks = [] ∧
    (twentyJwtTokenInfo env t p w).twentyApiKey = t.raw ∧
    (twentyJwtTokenInfo env t p w).expiresAtMs = some (jwtExpiresMs env.nowMs p) ∧
    (p.exp = none → jwtExpiresMs env.nowMs p = env.nowMs + 86400000) ∧
    alistLookup (verifyAccessToken env t).cacheAfter t.raw =
      some (twentyJwtTokenInfo env t p w) := by
  have hv : verifyAccessToken env t =
      ⟨Except.ok (twentyJwtTokenInfo env t p w), [],
        alistSet env.tokenCache t.raw (twentyJwtTokenInfo env t p w)⟩ := by
    simp [verifyAccessToken, verifyJwtNoEmbeddedKey, embeddedApiKey, jsOrStr, optTruthy,
      hc, hj, hp, h1, h2, h3, hty, hw, hwt]
  refine ⟨by rw [hv], by rw [hv], rfl, rfl, ?_, by rw [hv]; exact alistLookup_set_self _ _ _⟩
  intro he
  simp [jwtExpiresMs, he]

/-- C10 witness: the concrete workspace JWT above, in an environment
whose connectivity oracle would accept anything (so an empty
connectivity-check list is meaningful). -/
theorem c10_witness :
    (verifyAccessToken c10Env c10Token).result =
      Except.ok (twentyJwtTokenInfo c10Env c10Token c10Payload "ws-1") ∧
    (verifyAccessToken c10Env c10Token).connectivityChecks = [] ∧
    (twentyJwtTokenInfo c10Env c10Token c10Payload "ws-1").twentyApiKey = c10Token.raw ∧
    (twentyJwtTokenInfo c10Env c10Token c10Payload "ws-1").expiresAtMs =
      some (jwtExpiresMs c10Env.nowMs c10Payload) ∧
    (c10Payload.exp = none →
      jwtExpiresMs c10Env.nowMs c10Payload = c10Env.nowMs + 86400000) ∧
    alistLookup (verifyAccessToken c10Env c10Token).cacheAfter c10Token.raw =
      some (twentyJwtTokenInfo c10Env c10Token c10Payload "ws-1") :=
  c10_twenty_jwt_accepted_without_check c10Env c10Token c10Payload "ws-1"
    rfl (by decide) rfl rfl rfl rfl rfl rfl (by decide)

end TwentyMCP
